import Mathlib

/-!
Verification of the report-rendering script `src/analysis/generate_plots.py`
of the ledgerops repository.

The script is a straight-line matplotlib program: it embeds the benchmark
data for two load scenarios as literals, builds three charts (a p95-latency
bar chart, an abort-rate bar chart, and a throughput line chart), saves each
one to a fixed PNG path at 300 dpi, and prints one confirmation line per
image.  We embed the data, the value-label formatting, the chart
specifications and the observable event trace (image writes and console
lines) as Lean definitions, and prove the claims about them.

Numeric literals of the script are embedded as exact rationals.
-/

namespace LedgerOps

/-- The x-axis scenario labels, from `scenarios = ['Uniform (10 VU)', 'Hot-Spot (50 VU)']`. -/
def scenarios : List String := ["Uniform (10 VU)", "Hot-Spot (50 VU)"]

/-- The p95 latencies in ms, from `p95_latency = [39.88, 145.27]`. -/
def p95_latency : List ℚ := [mkRat 3988 100, mkRat 14527 100]

/-- The abort rates in percent, from `abort_rates = [1.79, 87.40]`. -/
def abort_rates : List ℚ := [mkRat 179 100, mkRat 8740 100]

/-- The throughput values in requests per second, from `throughput = [326.5, 527.2]`. -/
def throughput : List ℚ := [mkRat 3265 10, mkRat 5272 10]

/-- The bar x positions, from `x = np.arange(len(scenarios))`. -/
def xPositions : List Nat := List.range scenarios.length

/-- Left-pads a digit string with zeros up to width `d`. -/
def padLeftZeros (d : Nat) (s : String) : String :=
  if s.length < d then String.mk (List.replicate (d - s.length) '0') ++ s else s

/-- Fixed-point decimal rendering of a rational with `d` digits after the
point, rounding to nearest; this models the printf-style conversion used by
matplotlib for a format such as the script's two-decimal one.  (For every
value the script formats, the nearest double is not a tie at `d` digits, so
the tie-breaking convention is irrelevant.) -/
def formatFixed (d : Nat) (q : ℚ) : String :=
  let n : ℤ := Int.fdiv (2 * q.num * 10 ^ d + q.den) (2 * q.den)
  let sign := if n < 0 then "-" else ""
  let m := n.natAbs
  let ip := m / 10 ^ d
  let fp := m % 10 ^ d
  if d = 0 then sign ++ toString ip
  else sign ++ toString ip ++ "." ++ padLeftZeros d (toString fp)

/-- The kind of chart drawn on an axes object: `ax.bar` versus `ax.plot`. -/
inductive ChartKind
  | bar
  | line
deriving DecidableEq, Repr

/-- One value label attached to a bar or point: the labelled value, the
rendered text, and the vertical offset (in points) placing the text above the
element (`padding=3` for `bar_label`, `xytext=(0, 10)` for `annotate`). -/
structure ValueLabel where
  value : ℚ
  text : String
  offsetAbove : ℤ
deriving DecidableEq, Repr

/-- A chart as configured by the script: kind, y-axis label, fixed y-limits,
x labels, plotted values, the value labels, output path and save resolution. -/
structure Chart where
  kind : ChartKind
  ylabel : String
  ymin : ℚ
  ymax : ℚ
  xlabels : List String
  values : List ℚ
  labels : List ValueLabel
  outPath : String
  dpi : Nat
deriving DecidableEq, Repr

/-- Figure 5.1 of the script: the latency bar chart.  Bars are
`ax1.bar(x, p95_latency, ...)`, labels come from
`ax1.bar_label(rects1, padding=3, fmt='%.2f ms')`, limits from
`ax1.set_ylim(0, 180)`, saved by `plt.savefig('fig06_latency.png', dpi=300)`. -/
def fig06 : Chart where
  kind := ChartKind.bar
  ylabel := "p95 Latency (ms)"
  ymin := 0
  ymax := 180
  xlabels := scenarios
  values := p95_latency
  labels := p95_latency.map (fun v => ⟨v, formatFixed 2 v ++ " ms", 3⟩)
  outPath := "fig06_latency.png"
  dpi := 300

/-- Figure 5.2 of the script: the abort-rate bar chart.  Bars are
`ax2.bar(x, abort_rates, ...)`, labels come from
`ax2.bar_label(rects2, padding=3, fmt='%.2f%%')`, limits from
`ax2.set_ylim(0, 100)`, saved by `plt.savefig('fig07_abort.png', dpi=300)`. -/
def fig07 : Chart where
  kind := ChartKind.bar
  ylabel := "Abort Rate (%)"
  ymin := 0
  ymax := 100
  xlabels := scenarios
  values := abort_rates
  labels := abort_rates.map (fun v => ⟨v, formatFixed 2 v ++ "%", 3⟩)
  outPath := "fig07_abort.png"
  dpi := 300

/-- Figure 5.3 of the script: the throughput line chart.  Points come from
`ax3.plot(scenarios, throughput, marker='o', ...)`, each point is annotated
with `f"` followed by the value and `" RPS"` at `xytext=(0, 10)` offset
points, limits from `ax3.set_ylim(0, 600)`, saved by
`plt.savefig('fig08_throughput.png', dpi=300)`.  Both embedded throughput
literals print with exactly one digit after the point under Python float
rendering, so the interpolated value is `formatFixed 1`. -/
def fig08 : Chart where
  kind := ChartKind.line
  ylabel := "Throughput (Req/Sec)"
  ymin := 0
  ymax := 600
  xlabels := scenarios
  values := throughput
  labels := throughput.map (fun v => ⟨v, formatFixed 1 v ++ " RPS", 10⟩)
  outPath := "fig08_throughput.png"
  dpi := 300

/-- The three charts, in the order the script builds them. -/
def charts : List Chart := [fig06, fig07, fig08]

/-- An externally observable event of a run: writing an image file at a
resolution, or printing one console line. -/
inductive Event
  | saveImage (path : String) (dpi : Nat)
  | consoleLine (line : String)
deriving DecidableEq, BEq, Repr

/-- The observable event trace of the script, in program order: each
`plt.savefig(...)` immediately followed by its `print("Generated ...")`. -/
def programTrace : List Event :=
  [Event.saveImage "fig06_latency.png" 300,
   Event.consoleLine "Generated fig06_latency.png",
   Event.saveImage "fig07_abort.png" 300,
   Event.consoleLine "Generated fig07_abort.png",
   Event.saveImage "fig08_throughput.png" 300,
   Event.consoleLine "Generated fig08_throughput.png"]

/-- Tests whether an event is an image write. -/
def isSaveEvent : Event → Bool
  | Event.saveImage _ _ => true
  | Event.consoleLine _ => false

/-- The path written by an event, if it is an image write. -/
def savedPathOf : Event → Option String
  | Event.saveImage p _ => some p
  | Event.consoleLine _ => none

/-- The text of an event, if it is a console line. -/
def lineOf : Event → Option String
  | Event.saveImage _ _ => none
  | Event.consoleLine l => some l

/-- Tests whether an event is a console line beginning with the word
Generated followed by a space. -/
def isGeneratedLine : Event → Bool
  | Event.saveImage _ _ => false
  | Event.consoleLine l => "Generated ".data.isPrefixOf l.data

/-- Holds of a trace in which every image write is immediately followed by
the confirmation line naming the file just written. -/
def confirmsSaves : List Event → Bool
  | [] => true
  | [Event.saveImage _ _] => false
  | Event.saveImage p _ :: e :: rest =>
      (e == Event.consoleLine ("Generated " ++ p)) && confirmsSaves (e :: rest)
  | Event.consoleLine _ :: rest => confirmsSaves rest

/-- The file system after replaying a trace: an image write stores the save
resolution at the written path, unconditionally overwriting whatever was
there; console lines leave the file system unchanged. -/
def runFs (init : String → Option Nat) (tr : List Event) : String → Option Nat :=
  tr.foldl
    (fun fs e =>
      match e with
      | Event.saveImage p d => fun q => if q = p then some d else fs q
      | Event.consoleLine _ => fs)
    init

/-- The whole run of the script, as a function of its(empty) input: the
charts it builds and the event trace it produces.  The script reads nothing,
so the run is a function out of `Unit`. -/
structure ProgramRun where
  runCharts : List Chart
  runTrace : List Event
deriving DecidableEq, Repr

/-- Executes the script: builds the three figures and emits the trace. -/
def runProgram : Unit → ProgramRun :=
  fun _ => ⟨charts, programTrace⟩

/-- Modelled from the spec: the repository's file-backed loading variant of
the report renderer is not among the source files under src/ (the spec
describes three near-duplicate script variants; only the literal-data one is
present).  A per-scenario input source: the scenario label and the path of
the JSON file holding its metrics. -/
structure ScenarioSource where
  label : String
  sourceFile : String
deriving DecidableEq, Repr

/-- Modelled from the spec: one loaded metric record, with the numeric keys
`throughput_tps` and `abort_rate_pct` the spec names for the file format. -/
structure MetricRecord where
  label : String
  throughput_tps : ℚ
  abort_rate_pct : ℚ
deriving DecidableEq, Repr

/-- Modelled from the spec: the loading pass of the file-backed variant.
It walks the scenario sources in order; a scenario whose file exists is
parsed and kept, a scenario whose file is missing is dropped and produces
the console warning naming the missing source.  Returns the kept records in
input order together with the warning lines. -/
def loadScenarios (fileExists : String → Bool) (parse : String → MetricRecord) :
    List ScenarioSource → List MetricRecord × List String
  | [] => ([], [])
  | s :: rest =>
      let r := loadScenarios fileExists parse rest
      if fileExists s.sourceFile then
        (parse s.sourceFile :: r.1, r.2)
      else
        (r.1, ("Warning: " ++ s.sourceFile ++ " not found. Skipping.") :: r.2)

/-- The outcome of a run of the file-backed variant: its console/file trace
and its process exit status. -/
structure RunResult where
  trace : List Event
  exitCode : Nat
deriving DecidableEq, Repr

/-- Modelled from the spec: the full run of the file-backed variant.  It
loads the scenarios, prints one warning per missing source; if no record was
loaded it prints the empty-result message and exits successfully without
writing any image, otherwise it renders the chart image named in the spec
and confirms it.  Either way the exit status is zero. -/
def runLoaderReport (fileExists : String → Bool) (parse : String → MetricRecord)
    (srcs : List ScenarioSource) : RunResult :=
  let r := loadScenarios fileExists parse srcs
  if r.1.isEmpty then
    ⟨r.2.map Event.consoleLine ++ [Event.consoleLine "No data found."], 0⟩
  else
    ⟨r.2.map Event.consoleLine ++
      [Event.saveImage "benchmark_results.png" 300,
       Event.consoleLine "Generated benchmark_results.png"], 0⟩

/-- The records kept by the loading pass are exactly the scenarios whose
source file exists, parsed, in input order. -/
theorem loadScenarios_fst (fe : String → Bool) (parse : String → MetricRecord)
    (srcs : List ScenarioSource) :
    (loadScenarios fe parse srcs).1
      = (srcs.filter (fun s => fe s.sourceFile)).map (fun s => parse s.sourceFile) := by
  induction srcs with
  | nil => rfl
  | cons s rest ih =>
      cases h : fe s.sourceFile <;> simp [loadScenarios, h, ih, List.filter_cons]

/-- The warnings emitted by the loading pass are exactly one per scenario
whose source file is missing, in input order, each naming the missing
source. -/
theorem loadScenarios_snd (fe : String → Bool) (parse : String → MetricRecord)
    (srcs : List ScenarioSource) :
    (loadScenarios fe parse srcs).2
      = (srcs.filter (fun s => !(fe s.sourceFile))).map
          (fun s => "Warning: " ++ s.sourceFile ++ " not found. Skipping.") := by
  induction srcs with
  | nil => rfl
  | cons s rest ih =>
      cases h : fe s.sourceFile <;> simp [loadScenarios, h, ih, List.filter_cons]

/-- The file-backed variant always exits with status zero. -/
theorem runLoaderReport_exitCode (fe : String → Bool) (parse : String → MetricRecord)
    (srcs : List ScenarioSource) :
    (runLoaderReport fe parse srcs).exitCode = 0 := by
  by_cases h : (loadScenarios fe parse srcs).1.isEmpty <;>
    simp [runLoaderReport, h]

/-- C1.  The claim as stated is false: the abort-rate bars are labelled by
the format string of the source, two decimals plus a percent sign, so the
labels rendered for the embedded inputs 1.79 and 87.40 are the strings with
two decimals and not the claimed one-decimal strings; and the throughput
point labels keep the decimal point of the value rather than using integer
formatting. -/
theorem c1_label_format_counterexample :
    fig07.labels.map ValueLabel.text = ["1.79%", "87.40%"] ∧
    fig07.labels.map ValueLabel.text ≠ ["1.8%", "87.4%"] ∧
    fig08.labels.map ValueLabel.text = ["326.5 RPS", "527.2 RPS"] ∧
    fig08.labels.map ValueLabel.text ≠ throughput.map (fun v => formatFixed 0 v ++ " RPS") := by
  refine ⟨by decide, by decide, by decide, by decide⟩

/-- C1 amended.  The value label rendered for each abort-rate bar uses
two-decimal-plus-percent formatting (for the embedded inputs 1.79 and 87.40
the labels are the two-decimal strings, the trailing zero of 87.40 kept by
the format), and the value label for each throughput point renders the value
with its one decimal digit followed by an RPS suffix, regardless of the
precision of the source value. -/
theorem c1_label_format_amended :
    fig07.labels.map ValueLabel.text = abort_rates.map (fun v => formatFixed 2 v ++ "%") ∧
    fig07.labels.map ValueLabel.text = ["1.79%", "87.40%"] ∧
    fig08.labels.map ValueLabel.text = throughput.map (fun v => formatFixed 1 v ++ " RPS") ∧
    fig08.labels.map ValueLabel.text = ["326.5 RPS", "527.2 RPS"] := by
  refine ⟨by decide, by decide, by decide, by decide⟩

/-- C2.  The claim as stated is false in one respect: the throughput chart
of the source is drawn with `ax3.plot`, a line chart with marked points, not
a bar chart. -/
theorem c2_throughput_chart_counterexample :
    fig08.kind ≠ ChartKind.bar ∧ fig08.kind = ChartKind.line := by
  refine ⟨by decide, by decide⟩

/-- C2 amended.  Given throughput 326.5 for the Uniform scenario and 527.2
for the Hot-Spot scenario, the renderer produces a two-point throughput line
chart whose points carry the 326.5-equivalent and 527.2-equivalent labels
under the configured format. -/
theorem c2_throughput_chart_amended :
    fig08.kind = ChartKind.line ∧
    fig08.values = [mkRat 3265 10, mkRat 5272 10] ∧
    fig08.xlabels = ["Uniform (10 VU)", "Hot-Spot (50 VU)"] ∧
    fig08.values.length = 2 ∧
    fig08.labels.map ValueLabel.value = fig08.values ∧
    fig08.labels.map ValueLabel.text
      = [formatFixed 1 (mkRat 3265 10) ++ " RPS", formatFixed 1 (mkRat 5272 10) ++ " RPS"] := by
  refine ⟨by decide, by decide, by decide, by decide, by decide, by decide⟩

/-- C3.  In the file-backed loading variant (modelled from the spec), every
scenario whose source file is missing produces exactly the console warning
naming the missing source, and is excluded from the loaded collection; the
remaining scenarios are all kept, in order, and the run still exits with
status zero. -/
theorem c3_missing_source_skipped (fileExists : String → Bool)
    (parse : String → MetricRecord) (srcs : List ScenarioSource) :
    (loadScenarios fileExists parse srcs).2
      = (srcs.filter (fun s => !(fileExists s.sourceFile))).map
          (fun s => "Warning: " ++ s.sourceFile ++ " not found. Skipping.") ∧
    (loadScenarios fileExists parse srcs).1
      = (srcs.filter (fun s => fileExists s.sourceFile)).map (fun s => parse s.sourceFile) ∧
    (runLoaderReport fileExists parse srcs).exitCode = 0 :=
  ⟨loadScenarios_snd fileExists parse srcs, loadScenarios_fst fileExists parse srcs,
   runLoaderReport_exitCode fileExists parse srcs⟩

/-- C4.  In the file-backed loading variant (modelled from the spec), if no
scenario's source file exists, the run writes no image, its last console
line is the empty-result message, and it exits with status zero. -/
theorem c4_empty_collection (fileExists : String → Bool)
    (parse : String → MetricRecord) (srcs : List ScenarioSource)
    (h : srcs.all (fun s => !(fileExists s.sourceFile)) = true) :
    (runLoaderReport fileExists parse srcs).trace.all (fun e => !(isSaveEvent e)) = true ∧
    (runLoaderReport fileExists parse srcs).trace.getLast?
      = some (Event.consoleLine "No data found.") ∧
    (runLoaderReport fileExists parse srcs).exitCode = 0 := by
  have hfst : (loadScenarios fileExists parse srcs).1 = [] := by
    rw [loadScenarios_fst]
    have hnil : srcs.filter (fun s => fileExists s.sourceFile) = [] := by
      rw [List.filter_eq_nil_iff]
      intro a ha
      have := List.all_eq_true.mp h a ha
      simp at this
      simp [this]
    rw [hnil]
    rfl
  refine ⟨?_, ?_, ?_⟩ <;>
    simp [runLoaderReport, hfst, isSaveEvent, List.getLast?_concat]

/-- C4 witness: a single scenario whose file is absent. -/
theorem c4_empty_collection_witness :
    (runLoaderReport (fun _ => false) (fun _ => ⟨"", 0, 0⟩)
        [⟨"Uniform", "uniform_results.json"⟩]).trace.all (fun e => !(isSaveEvent e)) = true ∧
    (runLoaderReport (fun _ => false) (fun _ => ⟨"", 0, 0⟩)
        [⟨"Uniform", "uniform_results.json"⟩]).trace.getLast?
      = some (Event.consoleLine "No data found.") ∧
    (runLoaderReport (fun _ => false) (fun _ => ⟨"", 0, 0⟩)
        [⟨"Uniform", "uniform_results.json"⟩]).exitCode = 0 :=
  c4_empty_collection (fun _ => false) (fun _ => ⟨"", 0, 0⟩)
    [⟨"Uniform", "uniform_results.json"⟩] (by decide)

/-- C5.  Every chart of the script draws exactly as many bars or points as
there are scenarios, one x position per scenario, and the values appear in
the scenarios' enumeration order left to right. -/
theorem c5_counts_and_order :
    xPositions = [0, 1] ∧
    xPositions.length = scenarios.length ∧
    fig06.values.length = scenarios.length ∧
    fig07.values.length = scenarios.length ∧
    fig08.values.length = scenarios.length ∧
    fig06.xlabels = scenarios ∧ fig07.xlabels = scenarios ∧ fig08.xlabels = scenarios ∧
    fig06.values = p95_latency ∧ fig07.values = abort_rates ∧ fig08.values = throughput := by
  refine ⟨by decide, by decide, by decide, by decide, by decide, by decide, by decide,
    by decide, by decide, by decide, by decide⟩

/-- C6.  Every image write in the trace is immediately followed by exactly
the confirmation line naming the file just written, there are exactly as
many confirmation lines as image writes, and the console lines of the trace
are precisely the Generated lines for the written paths, in order. -/
theorem c6_confirmation_lines :
    confirmsSaves programTrace = true ∧
    (programTrace.filter isGeneratedLine).length = (programTrace.filter isSaveEvent).length ∧
    programTrace.filterMap lineOf
      = (programTrace.filterMap savedPathOf).map (fun p => "Generated " ++ p) := by
  refine ⟨by decide, by decide, by decide⟩

/-- C7.  Whatever the prior contents of the file system, after a run the
three fixed relative paths hold images written at 300 dpi; the output paths
of the three charts are exactly the three hardcoded names; and a second run
over the resulting file system overwrites the very same paths with the same
results. -/
theorem c7_fixed_paths_and_dpi (init : String → Option Nat) :
    runFs init programTrace "fig06_latency.png" = some 300 ∧
    runFs init programTrace "fig07_abort.png" = some 300 ∧
    runFs init programTrace "fig08_throughput.png" = some 300 ∧
    runFs (runFs init programTrace) programTrace "fig06_latency.png" = some 300 ∧
    runFs (runFs init programTrace) programTrace "fig07_abort.png" = some 300 ∧
    runFs (runFs init programTrace) programTrace "fig08_throughput.png" = some 300 ∧
    charts.map Chart.outPath = ["fig06_latency.png", "fig07_abort.png", "fig08_throughput.png"] ∧
    charts.map Chart.dpi = [300, 300, 300] ∧
    programTrace.filterMap savedPathOf = charts.map Chart.outPath := by
  refine ⟨rfl, rfl, rfl, rfl, rfl, rfl, by decide, by decide, by decide⟩

/-- C8.  In every chart, each bar or point carries a label holding its own
value, whose text is the chart's format applied to that value, and every
label sits above its element by a strictly positive fixed offset. -/
theorem c8_every_element_labelled :
    fig06.labels.map ValueLabel.value = fig06.values ∧
    fig07.labels.map ValueLabel.value = fig07.values ∧
    fig08.labels.map ValueLabel.value = fig08.values ∧
    fig06.labels.map ValueLabel.text = fig06.values.map (fun v => formatFixed 2 v ++ " ms") ∧
    fig07.labels.map ValueLabel.text = fig07.values.map (fun v => formatFixed 2 v ++ "%") ∧
    fig08.labels.map ValueLabel.text = fig08.values.map (fun v => formatFixed 1 v ++ " RPS") ∧
    fig06.labels.map ValueLabel.offsetAbove = [3, 3] ∧
    fig07.labels.map ValueLabel.offsetAbove = [3, 3] ∧
    fig08.labels.map ValueLabel.offsetAbove = [10, 10] ∧
    charts.all (fun c => c.labels.all (fun l => decide (0 < l.offsetAbove))) = true := by
  refine ⟨by decide, by decide, by decide, by decide, by decide, by decide, by decide,
    by decide, by decide, by decide⟩

/-- C9.  The script takes no input, so any two runs are equal; the single
run plots the same two scenarios with the same three metric series, writes
the same three files in the same order, and prints exactly the three
Generated lines in that order. -/
theorem c9_deterministic_no_input :
    (∀ u v : Unit, runProgram u = runProgram v) ∧
    (runProgram ()).runCharts.map Chart.xlabels = [scenarios, scenarios, scenarios] ∧
    (runProgram ()).runCharts.map Chart.values = [p95_latency, abort_rates, throughput] ∧
    (runProgram ()).runTrace.filterMap lineOf
      = ["Generated fig06_latency.png", "Generated fig07_abort.png",
         "Generated fig08_throughput.png"] ∧
    (runProgram ()).runTrace.filterMap savedPathOf
      = ["fig06_latency.png", "fig07_abort.png", "fig08_throughput.png"] :=
  ⟨fun _ _ => rfl, by decide, by decide, by decide, by decide⟩

/-- C10.  Every embedded metric value lies within its chart's fixed y-axis
range, and each of the three metric lists has one value per scenario. -/
theorem c10_values_within_axis_ranges :
    fig06.values.all (fun v => decide (fig06.ymin ≤ v ∧ v ≤ fig06.ymax)) = true ∧
    fig07.values.all (fun v => decide (fig07.ymin ≤ v ∧ v ≤ fig07.ymax)) = true ∧
    fig08.values.all (fun v => decide (fig08.ymin ≤ v ∧ v ≤ fig08.ymax)) = true ∧
    fig06.ymin = 0 ∧ fig06.ymax = 180 ∧
    fig07.ymin = 0 ∧ fig07.ymax = 100 ∧
    fig08.ymin = 0 ∧ fig08.ymax = 600 ∧
    p95_latency.length = scenarios.length ∧
    abort_rates.length = scenarios.length ∧
    throughput.length = scenarios.length := by
  refine ⟨by decide, by decide, by decide, rfl, rfl, rfl, rfl, rfl, rfl,
    by decide, by decide, by decide⟩

end LedgerOps
